import Mathlib

/-!
Shallow embedding of `src/backend/gemini_module.py` (multiplayer code
collaboration backend) and proofs about its change-application and
synchronization pipeline.

Conventions:
* Python strings are Lean `String`s; the handful of Python string methods
  the module uses (`strip`, `lstrip`, `startswith`, slicing, `in`,
  `replace`, `split`, `join`) are embedded below on `List Char` data.
* The filesystem visible to one ticket workspace is a finite partial map
  `String → Option String` from workspace-relative paths to file contents
  (`os.path.join(workspace, p)` is injective over relative paths `p`, so
  dropping the workspace prefix loses nothing).
* Subprocess results (exit codes, stdout/stderr) are supplied by explicit
  environment records, since the external tools are outside the module.
-/

namespace GeminiModule

/-! ### Python string primitives -/

/-- Characters that Python `str.strip()` removes (ASCII whitespace; the module
only ever strips spaces, tabs and newlines). -/
def isPySpace (c : Char) : Bool :=
  c = ' ' || c = '\t' || c = '\n' || c = '\r' || c = '\x0b' || c = '\x0c'

/-- Python `s.lstrip()` on raw character data. -/
def pyLstripData (cs : List Char) : List Char :=
  cs.dropWhile isPySpace

/-- Python `s.rstrip()` on raw character data. -/
def pyRstripData (cs : List Char) : List Char :=
  (cs.reverse.dropWhile isPySpace).reverse

/-- Python `s.lstrip()`. -/
def pyLstrip (s : String) : String :=
  ⟨pyLstripData s.data⟩

/-- Python `s.strip()`. -/
def pyStrip (s : String) : String :=
  ⟨pyRstripData (pyLstripData s.data)⟩

/-- Python `s.startswith(t)`. -/
def pyStartswith (s t : String) : Bool :=
  t.data.isPrefixOf s.data

/-- Whether `t` occurs as a contiguous sublist of `s`. -/
def dataInfix : List Char → List Char → Bool
  | t, [] => t.isEmpty
  | t, c :: rest => t.isPrefixOf (c :: rest) || dataInfix t rest

/-- Python `t in s` (substring containment). -/
def pyContains (s t : String) : Bool :=
  dataInfix t.data s.data

/-- Python `s[n:]` (drop the first `n` characters). -/
def pyDrop (s : String) (n : Nat) : String :=
  ⟨s.data.drop n⟩

/-- Python `s.splitlines()` on raw data: split on `\n`, `\r\n` or `\r`,
with no trailing empty line (the module never feeds it the rarer Unicode
line breaks Python also recognises). -/
def pySplitlinesData : List Char → List (List Char)
  | [] => []
  | '\r' :: '\n' :: rest => [] :: pySplitlinesData rest
  | '\r' :: rest => [] :: pySplitlinesData rest
  | '\n' :: rest => [] :: pySplitlinesData rest
  | c :: rest =>
    match pySplitlinesData rest with
    | [] => [[c]]
    | l :: ls => (c :: l) :: ls

/-- Python `s.splitlines()`. -/
def pySplitlines (s : String) : List String :=
  (pySplitlinesData s.data).map List.asString

/-- Python `s.split('\n')` on raw data: always at least one piece, one
extra piece per `'\n'`. -/
def pySplitNlData : List Char → List (List Char)
  | [] => [[]]
  | c :: rest =>
    match pySplitNlData rest with
    | [] => [[]]
    | l :: ls => if c = '\n' then [] :: l :: ls else (c :: l) :: ls

/-- Python `s.split('\n')`. -/
def pySplitNl (s : String) : List String :=
  (pySplitNlData s.data).map List.asString

/-- Python `'\n'.join(lines)`. -/
def pyJoinNl : List String → String
  | [] => ""
  | [s] => s
  | s :: rest => s ++ "\n" ++ pyJoinNl rest

/-- Python join with the empty separator. -/
def pyConcat : List String → String
  | [] => ""
  | s :: rest => s ++ pyConcat rest

/-- Python join with a comma-space separator (JSON-array elements). -/
def pyJoinComma : List String → String
  | [] => ""
  | [s] => s
  | s :: rest => s ++ ", " ++ pyJoinComma rest

/-! ### Process Streamer sanitization (`stream_subprocess`, lines 47-57)

The loop body applied to each line of merged subprocess output:

    cleaned_line = line
    if cleaned_line.strip().startswith("data:"):
        cleaned_line = cleaned_line.strip()[5:].lstrip()
    if cleaned_line.strip() and cleaned_line.strip() != "__END__":
        yield cleaned_line
-/

/-- The per-line cleaning step of `stream_subprocess`. -/
def cleanLine (line : String) : String :=
  if pyStartswith (pyStrip line) "data:" then
    pyLstrip (pyDrop (pyStrip line) 5)
  else
    line

/-- The yield guard of `stream_subprocess`: keep a cleaned line iff its
strip is non-empty and is not the `__END__` sentinel. -/
def keepLine (s : String) : Bool :=
  !(pyStrip s == "") && !(pyStrip s == "__END__")

/-- The whole sanitized line sequence `stream_subprocess` yields, as a
function of the subprocess raw output lines. -/
def streamSanitize (lines : List String) : List String :=
  (lines.map cleanLine).filter keepLine

/-! ### Session Registry (`_parse_latest_session_uuid`, `get_or_create_session`)

`SESSION_STORE` is a process-wide dict `ticket_id -> session UUID`; we model
it as an association list threaded through the call.  External subprocess
behaviour (workspace existence, the `gemini --list-sessions` exit status and
output) is supplied by an environment record.
-/

/-- A character matched by the regex class `[0-9a-fA-F-]` used in
`_parse_latest_session_uuid`. -/
def isUuidChar (c : Char) : Bool :=
  c.isDigit || ('a' ≤ c && c ≤ 'f') || ('A' ≤ c && c ≤ 'F') || c = '-'

/-- Embedding of the `re.search` scan for a bracketed 36-character
hex-and-dash token on one line: the
first position holding `'['`, then exactly 36 class characters, then `']'`,
returning the bracketed group. -/
def findBracketUuid : List Char → Option String
  | [] => none
  | c :: rest =>
    if c = '[' && (rest.take 36).length == 36 && (rest.take 36).all isUuidChar
        && rest.get? 36 == some ']' then
      some ⟨rest.take 36⟩
    else
      findBracketUuid rest

/-- Embedding of `_parse_latest_session_uuid` (lines 65-90): scan every line of
`stdout + stderr` and keep the last UUID seen; `none` models the
`RuntimeError` raised when no UUID is found. -/
def parse_latest_session_uuid (stdout stderr : String) : Option String :=
  (pySplitlines (stdout ++ stderr)).foldl
    (fun acc line =>
      match findBracketUuid line.data with
      | some u => some u
      | none => acc)
    none

/-- Environment for one `get_or_create_session` call: whether the ticket
workspace directory exists, and the exit status and output channels of the
`gemini --list-sessions` subprocess. -/
structure SessionEnv where
  workspaceExists : Bool
  listExitOk : Bool
  listStdout : String
  listStderr : String

/-- Result of one `get_or_create_session` call: the returned UUID or the
raised error message, the `SESSION_STORE` contents afterwards, and how many
`gemini --list-sessions` invocations the call issued. -/
structure SessionCallResult where
  result : Except String String
  store : List (String × String)
  listCalls : Nat

/-- Embedding of `get_or_create_session` (lines 103-154).  Cached ticket: return the
stored UUID with no subprocess activity.  Otherwise: validate the workspace
(`_ensure_workspace` raises first), run the throwaway init prompt, run
`gemini --list-sessions`, fail on a non-zero exit or an unparseable output,
else cache and return the parsed UUID. -/
def get_or_create_session (store : List (String × String)) (ticketId : String)
    (env : SessionEnv) : SessionCallResult :=
  match store.lookup ticketId with
  | some u => ⟨.ok u, store, 0⟩
  | none =>
    if env.workspaceExists = false then
      ⟨.error ("Workspace for ticket " ++ ticketId ++ " not found."), store, 0⟩
    else if env.listExitOk = false then
      ⟨.error ("Failed to list sessions for ticket " ++ ticketId), store, 1⟩
    else
      match parse_latest_session_uuid env.listStdout env.listStderr with
      | some u => ⟨.ok u, (ticketId, u) :: store, 1⟩
      | none =>
        ⟨.error "Could not find any session UUID in gemini --list-sessions output.",
          store, 1⟩

/-! ### Change Applier (`_apply_new_files_directly`, lines 340-365)

The files of one ticket workspace are modelled as a partial map
`String → Option String` from workspace-relative paths to contents
(`os.path.join(workspace, p)` is injective over relative `p`, so the
workspace prefix is dropped).  `os.makedirs` only creates directories,
which the path-content map does not track.
-/

/-- The staging name `path + ".new"` used throughout the module. -/
def stagedName (p : String) : String := p ++ ".new"

/-- Effect of `os.replace(new_path, full_path)` on the path-content map:
the destination now holds the staged content and the staged path is gone. -/
def replaceAt (fs : String → Option String) (p : String) (c : String) :
    String → Option String :=
  fun q => if q = p then some c else if q = stagedName p then none else fs q

/-- Embedding of `_apply_new_files_directly`: walk the target list; when the staged
counterpart exists, atomically promote it over the original and count it;
otherwise skip silently.  Returns the final filesystem and the count. -/
def apply_new_files_directly (fs : String → Option String) :
    List String → (String → Option String) × Nat
  | [] => (fs, 0)
  | p :: rest =>
    match fs (stagedName p) with
    | none => apply_new_files_directly fs rest
    | some c =>
      let r := apply_new_files_directly (replaceAt fs p c) rest
      (r.1, r.2 + 1)

/-! ### Diff Recorder (`gemini_dev` step 3, lines 561-716) -/

/-- Header normalization for the modified-file case (lines 629-643): every
line opening with `diff --git`, `---` or `+++` is replaced wholesale by the
logical-relative-path form. -/
def fix_diff_line_existing (filePath : String) (l : String) : String :=
  if pyStartswith l "diff --git" then "diff --git a/" ++ filePath ++ " b/" ++ filePath
  else if pyStartswith l "---" then "--- a/" ++ filePath
  else if pyStartswith l "+++" then "+++ b/" ++ filePath
  else l

/-- The full modified-file diff fix: split on `'\n'`, rewrite each line,
rejoin. -/
def fix_diff_existing (filePath : String) (diff : String) : String :=
  pyJoinNl ((pySplitNl diff).map (fix_diff_line_existing filePath))

/-- Header normalization for the new-file case (lines 678-691): the
`diff --git` line is replaced; a `+++` line is replaced only when it
contains the (workspace-relative) `new_path` string; `---` lines are left
alone. -/
def fix_diff_line_new (filePath newPath : String) (l : String) : String :=
  if pyStartswith l "diff --git" then "diff --git a/" ++ filePath ++ " b/" ++ filePath
  else if pyStartswith l "+++" && pyContains l newPath then "+++ b/" ++ filePath
  else l

/-- The full new-file diff fix. -/
def fix_diff_new (filePath newPath : String) (diff : String) : String :=
  pyJoinNl ((pySplitNl diff).map (fix_diff_line_new filePath newPath))

/-- A realistic `git diff --no-index --src-prefix=a/ --dst-prefix=b/
/dev/null <abs new path>` output for a freshly staged one-line file:
`git` prints the absolute path it was handed. -/
def newFileDiffRaw : String :=
  "diff --git a/srv/app/tickets/T1/a.txt.new b/srv/app/tickets/T1/a.txt.new\nnew file mode 100644\nindex 0000000..3e75765\n--- /dev/null\n+++ b/srv/app/tickets/T1/a.txt.new\n@@ -0,0 +1 @@\n+new"

/-! ### Audit artifacts of the change-set phase (`gemini_dev` step 3)

For each target path whose staged file exists, `gemini_dev` runs one
`git diff --no-index` subprocess; `diffRuns` supplies that subprocess
`(stdout, stderr)` per path.  The recorded writes are the per-file
`.diffs/<safe>.diff` files and, always last, the combined
`<ticket_id>.patch` file.
-/

/-- Embedding of the safe-filename transform: replace every forward slash
and every backslash by an underscore (both patterns are single characters,
so the two `replace` passes are one character map). -/
def safe_filename (p : String) : String :=
  ⟨p.data.map (fun c => if c = '/' || c = '\\' then '_' else c)⟩

/-- The fixed diff persisted for one target path, `none` when nothing is
written for it: staged file missing (skip), `git diff` wrote only to
stderr (error reported), or empty stdout (identical files). -/
def recorded_diff (workspace filePath : String) (fs : String → Option String)
    (diffRun : String × String) : Option String :=
  if (fs (stagedName filePath)).isSome = false then none
  else if diffRun.2 ≠ "" ∧ diffRun.1 = "" then none
  else if diffRun.1 ≠ "" then
    some (if (fs filePath).isSome then fix_diff_existing filePath diffRun.1
          else fix_diff_new filePath (workspace ++ "/" ++ stagedName filePath) diffRun.1)
  else none

/-- Content of the combined `<ticket_id>.patch` artifact: the recorded
diffs joined by `'\n'`, or the placeholder when none were recorded. -/
def combined_patch_content (workspace : String) (fs : String → Option String)
    (diffRuns : String → String × String) (files : List String) : String :=
  let patches := files.filterMap
    (fun fp => recorded_diff workspace fp fs (diffRuns fp))
  if patches.isEmpty then "# No changes detected\n" else pyJoinNl patches

/-- All audit-artifact writes of step 3, in order: one
`.diffs/<safe>.diff` per recorded diff, then the combined
`<ticket_id>.patch` (placeholder content when no diff was recorded). -/
def dev_step3_artifacts (ticketId workspace : String)
    (fs : String → Option String) (diffRuns : String → String × String)
    (files : List String) : List (String × String) :=
  (files.filterMap (fun fp =>
      (recorded_diff workspace fp fs (diffRuns fp)).map
        (fun d => (".diffs/" ++ safe_filename fp ++ ".diff", d))))
    ++ [(ticketId ++ ".patch", combined_patch_content workspace fs diffRuns files)]

/-- The JSON rendering of a path list, the shape the spec Change
Manifest would take (`["a.txt"]`, `[]`, ...).  Modelled from the spec:
no manifest-writing code exists in the repository; this definition only
serves to state what the spec says should have been saved. -/
def manifestRendering (files : List String) : String :=
  "[" ++ pyJoinComma (files.map (fun f => "\x22" ++ f ++ "\x22")) ++ "]"

/-! ### Plan Stage (`gemini_make_plan`, lines 316-334) -/

/-- The fixed header written before any streamed line. -/
def plan_header : String := "# Implementation Plan\n\n"

/-- Embedding of the `gemini_make_plan` artifact loop: starting from the header, append
each streamed line to the file while also collecting it; on completion
report `len("".join(collected_output))`.  Returns (final artifact content,
reported length). -/
def gemini_make_plan_run (lines : List String) : String × Nat :=
  let st := lines.foldl (fun (acc : String × List String) l => (acc.1 ++ l, l :: acc.2))
    (plan_header, [])
  (st.1, (pyConcat st.2.reverse).length)

/-! ### VCS Synchronizer (`gemini_dev` step 5, lines 731-835)

External tool behaviour is supplied by an environment record; the result
records which subprocesses the run invoked and how it ended.  `prViewUrl`
stands for the result of `json.loads(pr_view.stdout)["url"]`: `none` when
that raises (the bare `except: pass`).
-/

/-- Environment of one step-5 run. -/
structure VcsEnv where
  ghAvailable : Bool
  commitOk : Bool
  pushOk : Bool
  prViewOk : Bool
  prViewUrl : Option String
  prCreateOk : Bool
  prCreateStdout : String

/-- How the step-5 run ended (which yield path returned). -/
inductive VcsOutcome where
  | noGhTool
  | commitFailed
  | pushFailed
  | prUpdated (url : String)
  | prCreated (url : String)
  | prCreatedNoUrl
  | prCreateFailed
deriving DecidableEq

/-- Which subprocesses the step-5 run invoked, and its outcome. -/
structure VcsResult where
  addInvoked : Bool
  commitInvoked : Bool
  pushInvoked : Bool
  prViewInvoked : Bool
  prCreateInvoked : Bool
  outcome : VcsOutcome

/-- The URL-extraction loop on `gh pr create` stdout (lines 824-828):
the first line containing `https://github.com`, stripped. -/
def firstGithubLine (out : String) : Option String :=
  ((pySplitNl out).find? (fun l => pyContains l "https://github.com")).map pyStrip

/-- The `gh pr create` tail of step 5 (lines 800-835), reached when no
existing PR was reported. -/
def vcs_create (env : VcsEnv) : VcsResult :=
  if env.prCreateOk = false then ⟨true, true, true, true, true, .prCreateFailed⟩
  else
    match firstGithubLine env.prCreateStdout with
    | some url => ⟨true, true, true, true, true, .prCreated url⟩
    | none => ⟨true, true, true, true, true, .prCreatedNoUrl⟩

/-- Embedding of `gemini_dev` step 5: check `which gh` FIRST (early return before any
git activity), then `git add`/`git reset` the audit artifacts, commit,
push, query `gh pr view`, and only then fall through to `gh pr create`
when no existing PR URL was obtained. -/
def vcs_sync (env : VcsEnv) : VcsResult :=
  if env.ghAvailable = false then ⟨false, false, false, false, false, .noGhTool⟩
  else if env.commitOk = false then ⟨true, true, false, false, false, .commitFailed⟩
  else if env.pushOk = false then ⟨true, true, true, false, false, .pushFailed⟩
  else if env.prViewOk then
    match env.prViewUrl with
    | some url => ⟨true, true, true, true, false, .prUpdated url⟩
    | none => vcs_create env
  else vcs_create env

/-- Steps 4 and 5 of `gemini_dev` in sequence: apply the staged files,
then synchronize with version control.  Step 5 never touches the
path-content map, so the applied tree survives every sync outcome. -/
def dev_apply_and_sync (fs : String → Option String) (files : List String)
    (env : VcsEnv) : (String → Option String) × Nat × VcsResult :=
  let a := apply_new_files_directly fs files
  (a.1, a.2, vcs_sync env)

/-! ### Concrete witness data -/

/-- A tiny workspace: `a.txt` holds `"old"`, its staged replacement holds
`"new"`, and `b.txt` has no staged counterpart. -/
def fsAB : String → Option String := fun q =>
  if q = "a.txt" then some "old"
  else if q = "a.txt.new" then some "new"
  else if q = "b.txt" then some "keep"
  else none

/-! ### Claims C7 and C10 -/

/-- A fresh `get_or_create_session` call that returns a token must have
gone through the listing path: its whole result is determined. -/
lemma session_fresh_ok_eq (store : List (String × String)) (t : String)
    (env : SessionEnv) (u : String)
    (hfresh : store.lookup t = none)
    (h1 : (get_or_create_session store t env).result = .ok u) :
    get_or_create_session store t env = ⟨.ok u, (t, u) :: store, 1⟩ := by
  by_cases hw : env.workspaceExists = false
  · simp [get_or_create_session, hfresh, hw] at h1
  · by_cases hl : env.listExitOk = false
    · simp [get_or_create_session, hfresh, hw, hl] at h1
    · cases hp : parse_latest_session_uuid env.listStdout env.listStderr with
      | none => simp [get_or_create_session, hfresh, hw, hl, hp] at h1
      | some v =>
        have h2 : v = u := by
          simpa [get_or_create_session, hfresh, hw, hl, hp] using h1
        subst h2
        simp [get_or_create_session, hfresh, hw, hl, hp]

/-- A call on a store that already holds the ticket returns the cached
token with no subprocess activity. -/
lemma session_cached_eq (store : List (String × String)) (t : String)
    (env : SessionEnv) (u : String)
    (hc : store.lookup t = some u) :
    get_or_create_session store t env = ⟨.ok u, store, 0⟩ := by
  simp [get_or_create_session, hc]

/-- Claim C7: `get_or_create_session` is idempotent within one process
lifetime: if a first call on a fresh ticket succeeds with token `u`, a
second call for the same ticket (under any environment) returns the
identical token `u`, the first call issued exactly one session-listing
invocation, and the second call issued none. -/
theorem C7_get_or_create_session_idempotent
    (store : List (String × String)) (t : String) (env env2 : SessionEnv)
    (u : String)
    (hfresh : store.lookup t = none)
    (h1 : (get_or_create_session store t env).result = .ok u) :
    (get_or_create_session (get_or_create_session store t env).store t env2).result
        = .ok u
    ∧ (get_or_create_session store t env).listCalls = 1
    ∧ (get_or_create_session (get_or_create_session store t env).store t env2).listCalls
        = 0 := by
  have he := session_fresh_ok_eq store t env u hfresh h1
  have hc : ((t, u) :: store).lookup t = some u := by simp [List.lookup]
  have h2 := session_cached_eq ((t, u) :: store) t env2 u hc
  rw [he]
  exact ⟨by rw [h2], rfl, by rw [h2]⟩

/-- Witness for C7: a concrete fresh store and environment whose listing
output holds one bracketed 36-character token. -/
theorem C7_get_or_create_session_idempotent_witness :
    (get_or_create_session
        (get_or_create_session [] "T1"
          ⟨true, true, "  5. s (Just now) [5a249b28-9b10-499f-94f3-89cca14dc7c5]", ""⟩).store
        "T1" ⟨true, true, "", ""⟩).result
      = .ok "5a249b28-9b10-499f-94f3-89cca14dc7c5"
    ∧ (get_or_create_session [] "T1"
        ⟨true, true, "  5. s (Just now) [5a249b28-9b10-499f-94f3-89cca14dc7c5]", ""⟩).listCalls = 1
    ∧ (get_or_create_session
        (get_or_create_session [] "T1"
          ⟨true, true, "  5. s (Just now) [5a249b28-9b10-499f-94f3-89cca14dc7c5]", ""⟩).store
        "T1" ⟨true, true, "", ""⟩).listCalls = 0 :=
  C7_get_or_create_session_idempotent [] "T1"
    ⟨true, true, "  5. s (Just now) [5a249b28-9b10-499f-94f3-89cca14dc7c5]", ""⟩
    ⟨true, true, "", ""⟩ "5a249b28-9b10-499f-94f3-89cca14dc7c5" rfl rfl

/-- Claim C10: If `get_or_create_session` fails for a ticket (workspace
missing, non-zero listing exit, or no parseable token), it raises without
modifying the session registry: the store is unchanged and holds no entry
for the ticket afterwards. -/
theorem C10_failure_leaves_registry_unchanged
    (store : List (String × String)) (t : String) (env : SessionEnv)
    (e : String)
    (h : (get_or_create_session store t env).result = .error e) :
    (get_or_create_session store t env).store = store
    ∧ ((get_or_create_session store t env).store).lookup t = none := by
  cases hc : store.lookup t with
  | some u => simp [get_or_create_session, hc] at h
  | none =>
    by_cases hw : env.workspaceExists = false
    · simp [get_or_create_session, hc, hw]
    · by_cases hl : env.listExitOk = false
      · simp [get_or_create_session, hc, hw, hl]
      · cases hp : parse_latest_session_uuid env.listStdout env.listStderr with
        | none => simp [get_or_create_session, hc, hw, hl, hp]
        | some v => simp [get_or_create_session, hc, hw, hl, hp] at h

/-- Witness for C10: a concrete failing call (missing workspace) leaves the
empty registry empty. -/
theorem C10_failure_leaves_registry_unchanged_witness :
    (get_or_create_session [] "T1" ⟨false, true, "", ""⟩).store = []
    ∧ ((get_or_create_session [] "T1" ⟨false, true, "", ""⟩).store).lookup "T1"
        = none :=
  C10_failure_leaves_registry_unchanged [] "T1" ⟨false, true, "", ""⟩
    ("Workspace for ticket " ++ "T1" ++ " not found.") rfl

/-! ### Claims C8 and C9 -/

/-- Claim C8: Sanitizing the input lines `"data: X"`, `"data: "`,
`"data: __END__"` yields exactly one content line, `"X"`: the `"data:"`
framing is stripped, and lines that are empty or the end-of-stream
sentinel after stripping are dropped. -/
theorem C8_sanitize_example :
    streamSanitize ["data: X", "data: ", "data: __END__"] = ["X"] := by
  decide

/-- Claim C9: Every line yielded by the stream sanitizer is non-empty after
trimming and is not the sentinel `"__END__"`: the drop rule applies to
every input line, including lines that never carried the `"data:"`
prefix. -/
theorem C9_yielded_lines_invariant (lines : List String) (s : String)
    (h : s ∈ streamSanitize lines) :
    pyStrip s ≠ "" ∧ pyStrip s ≠ "__END__" := by
  unfold streamSanitize at h
  have hk : keepLine s = true := (List.mem_filter.mp h).2
  simp only [keepLine, Bool.and_eq_true, Bool.not_eq_true', beq_eq_false_iff_ne,
    ne_eq] at hk
  exact hk

/-- Witness for C9 at a concrete input: the blank line is dropped and the
surviving line `"hello"` satisfies the invariant. -/
theorem C9_yielded_lines_invariant_witness :
    pyStrip "hello" ≠ "" ∧ pyStrip "hello" ≠ "__END__" :=
  C9_yielded_lines_invariant ["", "hello", "__END__"] "hello" (by decide)

/-! ### Claim C1 -/

/-- Appending the staging suffix never yields the path itself. -/
lemma stagedName_ne_self (p : String) : stagedName p ≠ p := by
  intro h
  have hd := congrArg String.data h
  simp only [stagedName, String.data_append] at hd
  have hl := congrArg List.length hd
  simp [List.length_append] at hl

/-- The staging suffix is injective on paths. -/
lemma stagedName_inj {p q : String} (h : stagedName p = stagedName q) : p = q := by
  have hd : p.data ++ (".new" : String).data = q.data ++ (".new" : String).data :=
    congrArg String.data h
  exact String.ext (List.append_cancel_right hd)

/-- Frame property: a path that is neither a target nor a target staged
name is untouched by the Change Applier. -/
lemma apply_frame (x : String) :
    ∀ (ps : List String) (fs : String → Option String),
      (∀ q ∈ ps, x ≠ q ∧ x ≠ stagedName q) →
      (apply_new_files_directly fs ps).1 x = fs x := by
  intro ps
  induction ps with
  | nil => intro fs _; rfl
  | cons p rest ih =>
    intro fs hx
    obtain ⟨hx1, hx2⟩ := hx p (by simp)
    have hrest : ∀ q ∈ rest, x ≠ q ∧ x ≠ stagedName q :=
      fun q hq => hx q (by simp [hq])
    cases hc : fs (stagedName p) with
    | none =>
      simp only [apply_new_files_directly, hc]
      exact ih _ hrest
    | some c =>
      simp only [apply_new_files_directly, hc]
      rw [ih _ hrest]
      simp [replaceAt, hx1, hx2]

/-- Claim C1: For every workspace and every list of (pairwise distinct,
non-overlapping-with-their-staged-names) target paths: a target whose
staged file exists ends up holding exactly the staged content with the
staged file removed; a target whose staged file is missing is untouched
(and no error is raised — the function is total); the returned count is
the number of targets whose staged file existed. -/
theorem C1_apply_new_files_correct (fs : String → Option String)
    (ps : List String) (hnd : ps.Nodup)
    (hcl : ∀ p ∈ ps, ∀ q ∈ ps, q ≠ stagedName p) :
    (∀ p ∈ ps,
        (∀ c, fs (stagedName p) = some c →
            (apply_new_files_directly fs ps).1 p = some c
            ∧ (apply_new_files_directly fs ps).1 (stagedName p) = none)
        ∧ (fs (stagedName p) = none →
            (apply_new_files_directly fs ps).1 p = fs p))
    ∧ (apply_new_files_directly fs ps).2
        = (ps.filter fun p => (fs (stagedName p)).isSome).length := by
  induction ps generalizing fs with
  | nil => exact ⟨by simp, rfl⟩
  | cons p rest ih =>
    have hndr : rest.Nodup := hnd.of_cons
    have hpnr : p ∉ rest := (List.nodup_cons.mp hnd).1
    have hclr : ∀ a ∈ rest, ∀ b ∈ rest, b ≠ stagedName a :=
      fun a ha b hb => hcl a (by simp [ha]) b (by simp [hb])
    have hframe_p : ∀ q ∈ rest, p ≠ q ∧ p ≠ stagedName q := by
      intro q hq
      exact ⟨fun he => hpnr (he ▸ hq), hcl q (by simp [hq]) p (by simp)⟩
    have hframe_sp : ∀ q ∈ rest, stagedName p ≠ q ∧ stagedName p ≠ stagedName q := by
      intro q hq
      refine ⟨Ne.symm (hcl p (by simp) q (by simp [hq])), ?_⟩
      intro he
      exact hpnr (stagedName_inj he ▸ hq)
    cases hc : fs (stagedName p) with
    | none =>
      obtain ⟨ihA, ihB⟩ := ih fs hndr hclr
      constructor
      · intro a ha
        rcases List.mem_cons.mp ha with rfl | ha'
        · refine ⟨fun c hcc => absurd (hc ▸ hcc) (by simp), fun _ => ?_⟩
          simp only [apply_new_files_directly, hc]
          exact apply_frame a rest fs hframe_p
        · simpa only [apply_new_files_directly, hc] using ihA a ha'
      · simp only [apply_new_files_directly, hc, List.filter_cons]
        simpa [hc] using ihB
    | some c0 =>
      have hagree : ∀ q ∈ rest,
          replaceAt fs p c0 (stagedName q) = fs (stagedName q) := by
        intro q hq
        have h1 : stagedName q ≠ p := Ne.symm (hframe_p q hq).2
        have h2 : stagedName q ≠ stagedName p :=
          fun he => hpnr (stagedName_inj he ▸ hq)
        simp [replaceAt, h1, h2]
      obtain ⟨ihA, ihB⟩ := ih (replaceAt fs p c0) hndr hclr
      constructor
      · intro a ha
        rcases List.mem_cons.mp ha with rfl | ha'
        · constructor
          · intro c hcc
            have hcc' : c = c0 := by
              rw [hc] at hcc; exact (Option.some.injEq ..▸ hcc).symm
            subst hcc'
            constructor
            · simp only [apply_new_files_directly, hc]
              rw [apply_frame a rest (replaceAt fs a c) hframe_p]
              simp [replaceAt]
            · simp only [apply_new_files_directly, hc]
              rw [apply_frame (stagedName a) rest (replaceAt fs a c) hframe_sp]
              simp [replaceAt, stagedName_ne_self]
          · intro hcc
            rw [hc] at hcc; cases hcc
        · have hsa := hagree a ha'
          obtain ⟨pA, pB⟩ := ihA a ha'
          constructor
          · intro c hcc
            simpa only [apply_new_files_directly, hc] using pA c (hsa ▸ hcc)
          · intro hcc
            have hres := pB (hsa ▸ hcc)
            have ha1 : a ≠ p := fun he => hpnr (he ▸ ha')
            have ha2 : a ≠ stagedName p := hcl p (by simp) a (by simp [ha'])
            simp only [apply_new_files_directly, hc]
            rw [hres]
            simp [replaceAt, ha1, ha2]
      · simp only [apply_new_files_directly, hc, List.filter_cons]
        have hfc : (rest.filter fun q => (replaceAt fs p c0 (stagedName q)).isSome)
            = (rest.filter fun q => (fs (stagedName q)).isSome) :=
          List.filter_congr (fun q hq => by rw [hagree q hq])
        simp [ihB, hfc, hc]

/-- Witness for C1 on the concrete workspace `fsAB` with targets
`a.txt` (staged) and `b.txt` (not staged): `a.txt` now holds the staged
content, its staged file is gone, `b.txt` is untouched, and one file was
applied. -/
theorem C1_apply_new_files_correct_witness :
    (apply_new_files_directly fsAB ["a.txt", "b.txt"]).1 "a.txt" = some "new"
    ∧ (apply_new_files_directly fsAB ["a.txt", "b.txt"]).1 "a.txt.new" = none
    ∧ (apply_new_files_directly fsAB ["a.txt", "b.txt"]).1 "b.txt" = fsAB "b.txt"
    ∧ (apply_new_files_directly fsAB ["a.txt", "b.txt"]).2 = 1 := by
  have h := C1_apply_new_files_correct fsAB ["a.txt", "b.txt"]
    (by decide) (by decide)
  obtain ⟨hA, hB⟩ := h
  obtain ⟨ha1, _⟩ := hA "a.txt" (by simp)
  obtain ⟨_, hb2⟩ := hA "b.txt" (by simp)
  obtain ⟨hx, hy⟩ := ha1 "new" rfl
  refine ⟨?_, ?_, ?_, ?_⟩
  · simpa [stagedName] using hx
  · simpa [stagedName] using hy
  · exact hb2 rfl
  · rw [hB]; rfl

/-! ### Claim C2 -/

/-- Claim C2 counterexample: When the PR CLI tool is unavailable, `gemini_dev`
returns before any git activity: the local-only early exit does NOT commit
(the claim says the changes are committed locally). -/
theorem C2_counterexample :
    (vcs_sync ⟨false, true, true, true, none, true, ""⟩).outcome = .noGhTool
    ∧ (vcs_sync ⟨false, true, true, true, none, true, ""⟩).commitInvoked = false
    ∧ (vcs_sync ⟨false, true, true, true, none, true, ""⟩).addInvoked = false :=
  ⟨rfl, rfl, rfl⟩

/-- Claim C2 amended: With the PR tool unavailable the run exits early as a
degraded success in which the generated changes are applied to the working
tree but nothing is staged, committed, pushed or turned into a PR: the
`which gh` probe runs before the commit step, and the run tells the caller
to commit manually. -/
theorem C2_local_only_amended (fs : String → Option String)
    (files : List String) (env : VcsEnv) (h : env.ghAvailable = false) :
    (dev_apply_and_sync fs files env).2.2
        = ⟨false, false, false, false, false, .noGhTool⟩
    ∧ (dev_apply_and_sync fs files env).1 = (apply_new_files_directly fs files).1
    ∧ (dev_apply_and_sync fs files env).2.1
        = (apply_new_files_directly fs files).2 := by
  unfold dev_apply_and_sync vcs_sync
  simp [h]

/-- Witness for C2 amended: the concrete local-only run still applies the
staged file. -/
theorem C2_local_only_amended_witness :
    (dev_apply_and_sync fsAB ["a.txt"] ⟨false, true, true, true, none, true, ""⟩).2.2
        = ⟨false, false, false, false, false, .noGhTool⟩
    ∧ (dev_apply_and_sync fsAB ["a.txt"] ⟨false, true, true, true, none, true, ""⟩).1
        = (apply_new_files_directly fsAB ["a.txt"]).1
    ∧ (dev_apply_and_sync fsAB ["a.txt"] ⟨false, true, true, true, none, true, ""⟩).2.1
        = (apply_new_files_directly fsAB ["a.txt"]).2 :=
  C2_local_only_amended fsAB ["a.txt"] ⟨false, true, true, true, none, true, ""⟩ rfl

/-! ### Claim C4 -/

/-- Claim C4: On a dev run that reaches PR resolution and whose
`gh pr view` query succeeds with a parseable URL (a PR already exists),
the run reports the existing PR URL as updated and never invokes
`gh pr create` — re-running `dev` on an unchanged branch creates no
duplicate PR. -/
theorem C4_existing_pr_never_creates (env : VcsEnv) (u : String)
    (hgh : env.ghAvailable = true) (hc : env.commitOk = true)
    (hp : env.pushOk = true) (hv : env.prViewOk = true)
    (hu : env.prViewUrl = some u) :
    (vcs_sync env).outcome = .prUpdated u
    ∧ (vcs_sync env).prCreateInvoked = false := by
  simp [vcs_sync, hgh, hc, hp, hv, hu]

/-- Witness for C4 at a concrete environment with an open PR. -/
theorem C4_existing_pr_never_creates_witness :
    (vcs_sync ⟨true, true, true, true, some "https://github.com/o/r/pull/7", true, ""⟩).outcome
        = .prUpdated "https://github.com/o/r/pull/7"
    ∧ (vcs_sync ⟨true, true, true, true, some "https://github.com/o/r/pull/7", true, ""⟩).prCreateInvoked
        = false :=
  C4_existing_pr_never_creates
    ⟨true, true, true, true, some "https://github.com/o/r/pull/7", true, ""⟩
    "https://github.com/o/r/pull/7" rfl rfl rfl rfl rfl

/-! ### Claim C6 -/

/-- The plan-writing fold, characterized: the artifact grows by each line
in order and the collected list is the lines reversed. -/
lemma plan_fold (lines : List String) :
    ∀ (s : String) (acc : List String),
      lines.foldl (fun (acc : String × List String) l => (acc.1 ++ l, l :: acc.2))
          (s, acc)
        = (s ++ pyConcat lines, lines.reverse ++ acc) := by
  induction lines with
  | nil => intro s acc; simp [pyConcat]
  | cons l ls ih =>
    intro s acc
    simp only [List.foldl_cons, ih, pyConcat, List.reverse_cons]
    rw [String.append_assoc]
    simp

/-- Claim C6 counterexample: The reported completion length is NOT the
final plan artifact length: on an empty stream the artifact is the
23-character header while the reported length is 0. -/
theorem C6_counterexample :
    (gemini_make_plan_run []).2 ≠ (gemini_make_plan_run []).1.length := by
  decide

/-- Claim C6 amended: `gemini_make_plan` writes the fixed header followed by
every streamed line, in order, to the plan artifact; the length it reports
on completion is the length of the streamed content only, i.e. the final
artifact length minus the header length. -/
theorem C6_plan_report_amended (lines : List String) :
    (gemini_make_plan_run lines).1 = plan_header ++ pyConcat lines
    ∧ (gemini_make_plan_run lines).2 + plan_header.length
        = (gemini_make_plan_run lines).1.length := by
  unfold gemini_make_plan_run
  rw [plan_fold lines plan_header []]
  constructor
  · rfl
  · simp [String.length_append, Nat.add_comm]

/-- Witness instance for C6 amended at a concrete one-line stream. -/
theorem C6_plan_report_amended_witness :
    (gemini_make_plan_run ["plan body\n"]).1 = plan_header ++ pyConcat ["plan body\n"]
    ∧ (gemini_make_plan_run ["plan body\n"]).2 + plan_header.length
        = (gemini_make_plan_run ["plan body\n"]).1.length :=
  C6_plan_report_amended ["plan body\n"]

/-! ### Claim C3 -/

/-- Claim C3 counterexample: A change-set-phase run with an empty target
list writes exactly one audit artifact — the combined patch placeholder —
and its content is not the (empty) Change Manifest rendering: no manifest
artifact is saved, even though the claim says one is saved "even when the
list is empty". -/
theorem C3_counterexample :
    dev_step3_artifacts "T1" "./tickets/T1" (fun _ => none) (fun _ => ("", "")) []
      = [("T1.patch", "# No changes detected\n")]
    ∧ manifestRendering [] = "[]"
    ∧ ("# No changes detected\n" : String) ≠ "[]" :=
  ⟨rfl, rfl, by decide⟩

/-- Claim C3 amended: Every dev run that reaches the change-set phase saves
the combined diff artifact `<ticket>.patch` (even when the target list is
empty), and every audit artifact it saves is either that combined patch or
a per-file `.diffs/<safe>.diff`; no artifact records the target path list
itself — the manifest exists only in the streamed output. -/
theorem C3_always_patch_never_manifest (tid ws : String)
    (fs : String → Option String) (d : String → String × String)
    (files : List String) :
    (∃ c, (tid ++ ".patch", c) ∈ dev_step3_artifacts tid ws fs d files)
    ∧ (dev_step3_artifacts tid ws fs d files).all
        (fun e => e.1 == tid ++ ".patch"
          || files.any (fun fp => e.1 == ".diffs/" ++ safe_filename fp ++ ".diff"))
        = true := by
  constructor
  · refine ⟨combined_patch_content ws fs d files, ?_⟩
    unfold dev_step3_artifacts
    exact List.mem_append_right _ (List.mem_singleton_self _)
  · rw [List.all_eq_true]
    intro e he
    unfold dev_step3_artifacts at he
    rcases List.mem_append.mp he with h1 | h2
    · obtain ⟨fp, hfp, hmap⟩ := List.mem_filterMap.mp h1
      cases hr : recorded_diff ws fp fs (d fp) with
      | none => rw [hr] at hmap; cases hmap
      | some v =>
        rw [hr] at hmap
        simp only [Option.map_some'] at hmap
        have he2 := Option.some.inj hmap
        rw [← he2]
        have hany : (files.any fun fq =>
            ((".diffs/" ++ safe_filename fp ++ ".diff" : String)
              == ".diffs/" ++ safe_filename fq ++ ".diff")) = true := by
          rw [List.any_eq_true]
          exact ⟨fp, hfp, by simp⟩
        simp [hany]
    · have he' : e = (tid ++ ".patch", _) := List.mem_singleton.mp h2
      rw [he']
      simp

/-- Witness instance for C3 amended at the concrete empty-list run. -/
theorem C3_always_patch_never_manifest_witness :
    (∃ c, ("T1" ++ ".patch", c) ∈
        dev_step3_artifacts "T1" "./tickets/T1" (fun _ => none) (fun _ => ("", "")) [])
    ∧ (dev_step3_artifacts "T1" "./tickets/T1" (fun _ => none) (fun _ => ("", "")) []).all
        (fun e => e.1 == "T1" ++ ".patch"
          || ([] : List String).any
              (fun fp => e.1 == ".diffs/" ++ safe_filename fp ++ ".diff"))
        = true :=
  C3_always_patch_never_manifest "T1" "./tickets/T1" (fun _ => none)
    (fun _ => ("", "")) []

/-! ### Claim C5 -/

set_option maxRecDepth 40000 in
/-- Claim C5, failing input: In the new-file case the Diff Recorder does
NOT normalize the `+++` file-identification line: `git diff` was invoked
with the absolute staged path, so the rewrite guard
`new_path in line` — which checks for the workspace-relative
`./tickets/T1/a.txt.new` — never fires, and the recorded diff keeps
`+++ b/srv/app/tickets/T1/a.txt.new`, an absolute path with the `.new`
staging suffix (the `--- /dev/null` line is likewise left alone). -/
theorem C5_new_file_diff_keeps_staging_path :
    "+++ b/srv/app/tickets/T1/a.txt.new"
      ∈ pySplitNl (fix_diff_new "a.txt" "./tickets/T1/a.txt.new" newFileDiffRaw)
    ∧ "--- /dev/null"
      ∈ pySplitNl (fix_diff_new "a.txt" "./tickets/T1/a.txt.new" newFileDiffRaw)
    ∧ ("+++ b/a.txt" : String)
      ∉ pySplitNl (fix_diff_new "a.txt" "./tickets/T1/a.txt.new" newFileDiffRaw) := by
  decide

end GeminiModule
